import Mathlib

/-!
Shallow embedding of the yt-assistant-server conversation core:
the conversation state machine (`app/services/conversation.py`),
the WhatsApp webhook glue (`app/routers/whatsapp.py`), the OAuth
state-token round trip (`app/routers/oauth.py`) and the media
pipeline (`app/services/video.py`, `process_and_upload`).

Strings are modelled over ASCII: Python's `str.strip`, `str.lower`,
`int(...)` and the `\w` regex class are embedded for the ASCII
fragment the command vocabulary and the claims exercise
(underscore separators and non-ASCII digits of Python's `int` are
not modelled).
-/

namespace YT

/-- One row of the `accounts` table (`app/database.py`). -/
structure Account where
  id : Nat
  name : String
  credentials_path : Option String
deriving DecidableEq, Repr

/-- One row of the `conversations` table (`app/database.py`).
`updated_at` is a version counter: every committed mutation of the
row bumps it, modelling the SQLAlchemy `onupdate` refresh. -/
structure Conv where
  state : String
  youtube_url : Option String := none
  account_id : Option Nat := none
  title : Option String := none
  description : Option String := none
  thumbnail_path : Option String := none
  privacy : String := "public"
  updated_at : Nat := 0
deriving DecidableEq, Repr

/-- The dict-or-string return value of `process_message`, as the tagged
union the code distinguishes with `isinstance(reply, dict)`. -/
inductive Reply where
  | text (msg : String)
  | createAccount (name : String)
deriving DecidableEq, Repr

/-- Result of one `ConversationManager.process_message` call: the new
conversation row, the account table, the reply, and the credential
files unlinked by account removal. -/
structure PMOut where
  conv : Conv
  accounts : List Account
  reply : Reply
  deletedCreds : List String := []
deriving DecidableEq, Repr

/-! ## Python string primitives -/

/-- ASCII whitespace stripped by Python's `str.strip()` and `int()`. -/
def pyIsSpace (c : Char) : Bool :=
  c = ' ' || c = '\t' || c = '\n' || c = '\x0d' || c = '\x0b' || c = '\x0c'

/-- `str.strip()` on the character list. -/
def pyStrip (l : List Char) : List Char :=
  ((l.dropWhile pyIsSpace).reverse.dropWhile pyIsSpace).reverse

/-- `str.lower()` on one ASCII character. -/
def pyLowerChar (c : Char) : Char :=
  if 'A' ≤ c ∧ c ≤ 'Z' then Char.ofNat (c.toNat + 32) else c

/-- `str.lower()` on the character list. -/
def pyLower (l : List Char) : List Char := l.map pyLowerChar

/-- `message.strip().lower()`, the normalization at the top of
`process_message`. -/
def strip_lower (s : String) : String := ⟨pyLower (pyStrip s.data)⟩

/-- `message.strip()` (case preserving). -/
def strip_only (s : String) : String := ⟨pyStrip s.data⟩

/-- `s.lower()` at `String` level (used by `set_description`). -/
def lower_only (s : String) : String := ⟨pyLower s.data⟩

/-- Digit run to number, most significant first. -/
def digitsToNat (l : List Char) : Nat :=
  l.foldl (fun n c => 10 * n + (c.toNat - '0'.toNat)) 0

/-- Python `int(s)`: strip whitespace, optional sign, ASCII digit run;
anything else raises `ValueError`, modelled as `none`. -/
def pyInt? (s : String) : Option Int :=
  match pyStrip s.data with
  | [] => none
  | c :: rest =>
    if c = '-' then
      if rest.isEmpty then none
      else if rest.all Char.isDigit then some (-(digitsToNat rest : Int)) else none
    else if c = '+' then
      if rest.isEmpty then none
      else if rest.all Char.isDigit then some (digitsToNat rest : Int) else none
    else if (c :: rest).all Char.isDigit then some (digitsToNat (c :: rest) : Int)
    else none

/-! ## The YouTube URL regex

`YOUTUBE_URL_PATTERN = (https?://)?(www\.)?`
`(youtube\.com/watch\?v=|youtu\.be/|youtube\.com/shorts/)[\w-]+`
together with `.search` (leftmost match) and `.group(0)` (the matched
text), with the regex engine's backtracking order: greedy optional
groups, alternatives left to right. -/

/-- Consume the literal `p` from the front of `l`, returning the rest. -/
def matchLit : List Char → List Char → Option (List Char)
  | [], l => some l
  | _ :: _, [] => none
  | c :: p, d :: l => if c = d then matchLit p l else none

/-- Python `s.startswith(p)` (on the underlying characters). -/
def pyStartsWith (p l : List Char) : Bool := (matchLit p l).isSome

/-- The `[\w-]` character class (ASCII fragment). -/
def isWordChar (c : Char) : Bool := c.isAlphanum || c = '_' || c = '-'

def litHttps : List Char := "https://".data
def litHttp : List Char := "http://".data
def litWww : List Char := "www.".data
def hostWatch : List Char := "youtube.com/watch?v=".data
def hostShort : List Char := "youtu.be/".data
def hostShorts : List Char := "youtube.com/shorts/".data

/-- Try one host alternative followed by the mandatory `[\w-]+` run. -/
def tryHost (h l : List Char) : Option (List Char) :=
  match matchLit h l with
  | none => none
  | some rest =>
    let run := rest.takeWhile isWordChar
    if run.isEmpty then none else some (h ++ run)

/-- The three host alternatives, in the pattern's order. -/
def matchHost (l : List Char) : Option (List Char) :=
  match tryHost hostWatch l with
  | some m => some m
  | none =>
    match tryHost hostShort l with
    | some m => some m
    | none => tryHost hostShorts l

/-- Optional `(www\.)?` (greedy) before the host. -/
def tryWww (w l : List Char) : Option (List Char) :=
  match matchLit w l with
  | none => none
  | some rest => (matchHost rest).map (w ++ ·)

def matchWww (l : List Char) : Option (List Char) :=
  match tryWww litWww l with
  | some m => some m
  | none => tryWww [] l

/-- Optional `(https?://)?` (greedy, `https://` before `http://`). -/
def trySch (s l : List Char) : Option (List Char) :=
  match matchLit s l with
  | none => none
  | some rest => (matchWww rest).map (s ++ ·)

/-- A full match of the pattern anchored at the current position. -/
def matchAt (l : List Char) : Option (List Char) :=
  match trySch litHttps l with
  | some m => some m
  | none =>
    match trySch litHttp l with
    | some m => some m
    | none => trySch [] l

/-- `YOUTUBE_URL_PATTERN.search(message)` followed by `.group(0)`:
the match at the leftmost position where the pattern matches. -/
def youtube_url_search : List Char → Option (List Char)
  | [] => none
  | c :: rest =>
    match matchAt (c :: rest) with
    | some m => some m
    | none => youtube_url_search rest

/-! ## ConversationManager -/

/-- `ConversationManager.reset`: back to `idle`, all draft fields
cleared, privacy back to its `"public"` default; the commit bumps
`updated_at`. -/
def resetConv (c : Conv) : Conv :=
  { state := "idle", youtube_url := none, account_id := none, title := none,
    description := none, thumbnail_path := none, privacy := "public",
    updated_at := c.updated_at + 1 }

/-- `ConversationManager._help_message`. -/
def helpMessage : String :=
  "Commands:\n• upload - Start new upload\n• add - Add YouTube account\n• remove - Remove account\n• accounts - List accounts\n• cancel - Cancel current action"

/-- The numbered account list `f"{i+1}. {a.name}"` joined by newlines. -/
def numberedList (accounts : List Account) : String :=
  String.intercalate "\n" (accounts.enum.map (fun p => toString (p.1 + 1) ++ ". " ++ p.2.name))

/-- `ConversationManager._list_accounts`. -/
def listAccountsMsg (accounts : List Account) : String :=
  if accounts.isEmpty then "No accounts. Send 'add' to add one."
  else "Your accounts:\n" ++ String.intercalate "\n" (accounts.map (fun a => "• " ++ a.name))

/-- `ConversationManager._handle_adding_account` (receives the stripped,
case-preserving message). -/
def handleAddingAccount (conv : Conv) (accounts : List Account) (account_name : String) : PMOut :=
  if account_name = "" then
    { conv, accounts, reply := .text "Please enter a valid account name." }
  else if accounts.any (fun a => a.name == account_name) then
    { conv := resetConv conv, accounts,
      reply := .text ("Account '" ++ account_name ++ "' already exists.") }
  else
    { conv, accounts, reply := .createAccount account_name }

/-- `ConversationManager._handle_removing_account`. The credentials-file
unlink (guarded in the code by a `Path.exists` check) is recorded in
`deletedCreds`. -/
def handleRemovingAccount (conv : Conv) (accounts : List Account) (message : String) : PMOut :=
  match pyInt? message with
  | none => { conv, accounts, reply := .text "Enter the number of the account to remove." }
  | some choice =>
    if h : 1 ≤ choice ∧ choice ≤ (accounts.length : Int) then
      let i : Nat := (choice - 1).toNat
      let account := accounts.get ⟨i, by omega⟩
      { conv := resetConv conv, accounts := accounts.eraseIdx i,
        reply := .text ("Removed '" ++ account.name ++ "'."),
        deletedCreds := match account.credentials_path with | some p => [p] | none => [] }
    else
      { conv, accounts,
        reply := .text ("Enter a number between 1 and " ++ toString accounts.length ++ ".") }

/-- The scheme normalization of `_handle_awaiting_link`:
`if not url.startswith("http"): url = "https://" + url`. -/
def normalizeUrl (m : List Char) : String :=
  if pyStartsWith "http".data m then ⟨m⟩ else "https://" ++ (⟨m⟩ : String)

/-- `ConversationManager._handle_awaiting_link` (receives the raw
message; the two `db.commit()` calls each bump `updated_at`). -/
def handleAwaitingLink (conv : Conv) (accounts : List Account) (message : String) : PMOut :=
  match youtube_url_search message.data with
  | none => { conv, accounts, reply := .text "That's not a YouTube URL. Send a valid link." }
  | some m =>
    let url : String := normalizeUrl m
    let conv1 : Conv := { conv with youtube_url := some url, updated_at := conv.updated_at + 1 }
    match accounts with
    | [a] =>
      let conv2 := { conv1 with account_id := some a.id, state := "awaiting_title",
                                updated_at := conv1.updated_at + 1 }
      { conv := conv2, accounts,
        reply := .text ("Using " ++ a.name ++ ". Enter video title:") }
    | _ =>
      let conv2 := { conv1 with state := "awaiting_account", updated_at := conv1.updated_at + 1 }
      { conv := conv2, accounts,
        reply := .text ("Choose account:\n" ++ numberedList accounts ++ "\n\nReply with number:") }

/-- `ConversationManager._handle_awaiting_account`. -/
def handleAwaitingAccount (conv : Conv) (accounts : List Account) (message : String) : PMOut :=
  match pyInt? message with
  | none => { conv, accounts, reply := .text "Enter the account number." }
  | some choice =>
    if h : 1 ≤ choice ∧ choice ≤ (accounts.length : Int) then
      let i : Nat := (choice - 1).toNat
      let account := accounts.get ⟨i, by omega⟩
      let conv1 := { conv with account_id := some account.id, state := "awaiting_title",
                               updated_at := conv.updated_at + 1 }
      { conv := conv1, accounts,
        reply := .text ("Using " ++ account.name ++ ". Enter video title:") }
    else
      { conv, accounts, reply := .text ("Enter 1-" ++ toString accounts.length ++ ".") }

/-- `ConversationManager._handle_awaiting_thumbnail` (receives the
lowered message and the optional downloaded media path). -/
def handleAwaitingThumbnail (conv : Conv) (accounts : List Account)
    (message : String) (media_url : Option String) : PMOut :=
  match media_url with
  | some m =>
    let conv1 := { conv with thumbnail_path := some m, state := "awaiting_privacy",
                             updated_at := conv.updated_at + 1 }
    { conv := conv1, accounts, reply := .text "Privacy? (public / unlisted / private):" }
  | none =>
    if message = "auto" ∨ message = "default" ∨ message = "original" ∨ message = "skip" then
      let conv1 := { conv with thumbnail_path := none, state := "awaiting_privacy",
                               updated_at := conv.updated_at + 1 }
      { conv := conv1, accounts, reply := .text "Privacy? (public / unlisted / private):" }
    else
      { conv, accounts, reply := .text "Send an image or reply 'auto'." }

/-- The `privacy_map` dict of `_handle_awaiting_privacy`. -/
def privacyMap (m : String) : Option String :=
  if m = "public" ∨ m = "1" then some "public"
  else if m = "unlisted" ∨ m = "2" then some "unlisted"
  else if m = "private" ∨ m = "3" then some "private"
  else none

/-- `ConversationManager._handle_awaiting_privacy`. -/
def handleAwaitingPrivacy (conv : Conv) (accounts : List Account) (message : String) : PMOut :=
  match privacyMap message with
  | none => { conv, accounts, reply := .text "Reply: public, unlisted, or private" }
  | some p =>
    let conv1 := { conv with privacy := p, state := "processing",
                             updated_at := conv.updated_at + 1 }
    { conv := conv1, accounts, reply := .text "Processing... This may take a few minutes." }

/-- `ConversationManager.process_message`: global commands first, then
the per-state dispatch, with the unrecognized-state fallback reset. -/
def process_message (conv : Conv) (accounts : List Account)
    (message : String) (media_url : Option String) : PMOut :=
  let message_lower := strip_lower message
  let state := conv.state
  if message_lower = "cancel" ∨ message_lower = "stop" ∨ message_lower = "quit" then
    { conv := resetConv conv, accounts, reply := .text "Cancelled. Send 'upload' to start." }
  else if message_lower = "help" ∨ message_lower = "?" then
    { conv, accounts, reply := .text helpMessage }
  else if message_lower = "accounts" then
    { conv, accounts, reply := .text (listAccountsMsg accounts) }
  else if state = "idle" then
    if message_lower = "add" ∨ message_lower = "add account" then
      { conv := { conv with state := "adding_account", updated_at := conv.updated_at + 1 },
        accounts, reply := .text "Enter a name for this account (e.g. MusicChannel):" }
    else if message_lower = "remove" ∨ message_lower = "remove account" ∨
            message_lower = "delete" ∨ message_lower = "delete account" then
      if accounts.isEmpty then { conv, accounts, reply := .text "No accounts to remove." }
      else
        { conv := { conv with state := "removing_account", updated_at := conv.updated_at + 1 },
          accounts,
          reply := .text ("Which account to remove?\n" ++ numberedList accounts ++
                          "\n\nReply with number:") }
    else if message_lower = "upload" ∨ message_lower = "start" ∨ message_lower = "new" then
      if accounts.isEmpty then
        { conv, accounts,
          reply := .text "No accounts yet. Send 'add' to add a YouTube account first." }
      else
        { conv := { conv with state := "awaiting_link", updated_at := conv.updated_at + 1 },
          accounts, reply := .text "Send me the YouTube link to download audio from." }
    else
      { conv, accounts,
        reply := .text "Commands:\n• upload - Start upload\n• add - Add YouTube account\n• remove - Remove account\n• accounts - List accounts" }
  else if state = "adding_account" then
    handleAddingAccount conv accounts (strip_only message)
  else if state = "removing_account" then
    handleRemovingAccount conv accounts message_lower
  else if state = "awaiting_link" then
    handleAwaitingLink conv accounts message
  else if state = "awaiting_account" then
    handleAwaitingAccount conv accounts message_lower
  else if state = "awaiting_title" then
    { conv := { conv with state := "awaiting_description", updated_at := conv.updated_at + 1 },
      accounts, reply := .text "Description? (or 'skip'):" }
  else if state = "awaiting_description" then
    { conv := { conv with state := "awaiting_thumbnail", updated_at := conv.updated_at + 1 },
      accounts, reply := .text "Send thumbnail image or reply 'auto':" }
  else if state = "awaiting_thumbnail" then
    handleAwaitingThumbnail conv accounts message_lower media_url
  else if state = "awaiting_privacy" then
    handleAwaitingPrivacy conv accounts message_lower
  else if state = "processing" then
    { conv, accounts, reply := .text "Still processing... Please wait." }
  else
    { conv := resetConv conv, accounts,
      reply := .text "Something went wrong. Send 'upload' to start." }

/-- The fixed state enumeration of the class docstring. -/
def stateEnum : List String :=
  ["idle", "awaiting_link", "awaiting_account", "awaiting_title", "awaiting_description",
   "awaiting_thumbnail", "awaiting_privacy", "processing", "adding_account", "removing_account"]

/-! ## Webhook glue (`app/routers/whatsapp.py`) -/

/-- `ConversationManager.set_title` (called by the webhook before
`process_message` while the state is `awaiting_title`). -/
def set_title (c : Conv) (t : String) : Conv :=
  { c with title := some t, updated_at := c.updated_at + 1 }

/-- `ConversationManager.set_description`: skip words map to the empty
string, everything else is stored verbatim. -/
def set_description (c : Conv) (d : String) : Conv :=
  if lower_only d = "skip" ∨ lower_only d = "none" ∨ lower_only d = "-" then
    { c with description := some "", updated_at := c.updated_at + 1 }
  else
    { c with description := some d, updated_at := c.updated_at + 1 }

/-- The `state` format of `create_account_and_get_auth_url`:
`f"{account.id}:{phone_number}"`. -/
def make_oauth_state (account_id : Nat) (phone_number : String) : String :=
  toString account_id ++ ":" ++ phone_number

/-- Modelled from the spec: the external authorization-URL construction
(`google_auth_oauthlib`, outside this repository) is opaque to the core;
all the core relies on is that the URL carries the `state` token. -/
def get_authorization_url (s : String) : String :=
  "https://accounts.google.com/o/oauth2/auth?state=" ++ s

/-- Python `s.split(sep)` for a one-character separator: split at every
occurrence, keeping empty parts (`"".split(sep)` is `[""]`). -/
def pySplit (sep : Char) : List Char → List (List Char)
  | [] => [[]]
  | c :: rest =>
    let r := pySplit sep rest
    if c = sep then [] :: r
    else
      match r with
      | [] => [[c]]
      | h :: t => (c :: h) :: t

/-- The state parsing of `oauth_callback`
(`parts = state.split(":")`, `account_id = int(parts[0])`,
`phone_number = parts[1] if len(parts) > 1 else None`), with the
`ValueError`/`IndexError` guard modelled as `none`. -/
def parse_oauth_state (s : String) : Option (Int × Option String) :=
  match pySplit ':' s.data with
  | [] => none
  | p0 :: rest =>
    match pyInt? ⟨p0⟩ with
    | none => none
    | some i => some (i, rest.head?.map (⟨·⟩ : List Char → String))

/-- SQLite autoincrement primary key for a freshly inserted account. -/
def nextAccountId (accounts : List Account) : Nat :=
  (accounts.map (·.id)).foldr max 0 + 1

/-- Result of one `whatsapp_webhook` delivery (after the auth and
configuration gates): the persisted rows, the outbound reply text, and
whether `process_and_upload` was scheduled on this request
(`if manager.conversation.state == "processing"`). -/
structure WebOut where
  conv : Conv
  accounts : List Account
  reply : String
  launched : Bool
  deletedCreds : List String := []
deriving DecidableEq, Repr

/-- The body of `whatsapp_webhook` from the title/description
pre-capture onward: capture into the draft when the (pre-message) state
asks for it, run `process_message`, handle the `create_account` action
(which returns before the pipeline check), and otherwise schedule the
pipeline whenever the post-message state is `processing`. -/
def handle_webhook (conv : Conv) (accounts : List Account)
    (phone body : String) (media_path : Option String) : WebOut :=
  let state0 := conv.state
  let original_body := strip_only body
  let conv1 := if state0 = "awaiting_title" then set_title conv original_body else conv
  let conv2 := if state0 = "awaiting_description" then set_description conv1 original_body else conv1
  let r := process_message conv2 accounts body media_path
  match r.reply with
  | .createAccount name =>
    let newId := nextAccountId r.accounts
    let acct : Account :=
      { id := newId, name, credentials_path := some ("credentials/" ++ name ++ "_credentials.pickle") }
    { conv := resetConv r.conv, accounts := r.accounts ++ [acct],
      reply := "Click to authorize:\n" ++ get_authorization_url (make_oauth_state newId phone),
      launched := false, deletedCreds := r.deletedCreds }
  | .text t =>
    { conv := r.conv, accounts := r.accounts, reply := t,
      launched := r.conv.state == "processing", deletedCreds := r.deletedCreds }

/-! ## Orchestration pipeline
(`process_and_upload` in `app/routers/whatsapp.py` driving
`process_youtube_video` in `app/services/video.py` and `upload_video`
in `app/services/youtube.py`).

The external media/upload collaborators are an environment of per-stage
outcomes: each stage either returns its value (a fresh temp path, a
URL) or raises, which the code observes as an exception. -/

deriving instance DecidableEq for Except

/-- Per-run outcomes of the failable external stages. -/
structure PipelineEnv where
  downloadAudio : Except String String
  thumbUrl : Except String String
  downloadThumb : Except String String
  render : Except String String
  upload : Except String String
deriving DecidableEq, Repr

/-- Observable trace of `process_youtube_video`: the result (video path
or raised error), the temp artifacts written, the files removed, the
URLs fetched by `download_thumbnail`, and the image passed to
`create_video` as the static background. -/
structure MediaRun where
  video : Except String String
  created : List String
  deleted : List String
  fetched : List String
  background : Option String
deriving DecidableEq, Repr

/-- `process_youtube_video(youtube_url, thumbnail_path)`: download the
audio; if no custom thumbnail was given, derive the source's preview
URL and download it; render; then remove the audio file. -/
def process_youtube_video (env : PipelineEnv) (thumbnail_path : Option String) : MediaRun :=
  match env.downloadAudio with
  | .error e => ⟨.error e, [], [], [], none⟩
  | .ok audio_path =>
    let thumbStep : Except String (String × List String × List String) :=
      match thumbnail_path with
      | some t => .ok (t, [audio_path], [])
      | none =>
        match env.thumbUrl with
        | .error e => .error e
        | .ok u =>
          match env.downloadThumb with
          | .error e => .error e
          | .ok tp => .ok (tp, [audio_path, tp], [u])
    match thumbStep with
    | .error e => ⟨.error e, [audio_path], [], [], none⟩
    | .ok (tpath, created, fetched) =>
      match env.render with
      | .error e => ⟨.error e, created, [], fetched, some tpath⟩
      | .ok video_path => ⟨.ok video_path, created ++ [video_path], [audio_path], fetched, some tpath⟩

/-- The thumbnail the router actually forwards to the media/upload
calls: `thumbnail_path if thumbnail_path and not
thumbnail_path.startswith("http") else None`. -/
def localThumbOf (c : Conv) : Option String :=
  match c.thumbnail_path with
  | none => none
  | some t => if t = "" then none else if pyStartsWith "http".data t.data then none else some t

/-- Observable trace of one `process_and_upload` run. -/
structure PipeOut where
  messages : List String
  conv : Conv
  created : List String
  deleted : List String
  fetched : List String
  background : Option String
  attachedThumb : Option String
deriving DecidableEq, Repr

/-- `process_and_upload`: resolve the account, run the media pipeline,
upload, clean up on success only, and reset the conversation on every
exit path; any raised stage error is reported as `f"Error: {e}"`. -/
def process_and_upload (conv : Conv) (accounts : List Account) (env : PipelineEnv) : PipeOut :=
  match conv.account_id.bind (fun i => accounts.find? (fun a => a.id == i)) with
  | none =>
    { messages := ["Error: No account selected."], conv := resetConv conv,
      created := [], deleted := [], fetched := [], background := none, attachedThumb := none }
  | some _account =>
    let localThumb := localThumbOf conv
    let m := process_youtube_video env localThumb
    match m.video with
    | .error e =>
      { messages := ["Downloading audio...", "Error: " ++ e], conv := resetConv conv,
        created := m.created, deleted := m.deleted, fetched := m.fetched,
        background := m.background, attachedThumb := none }
    | .ok video_path =>
      match env.upload with
      | .error e =>
        { messages := ["Downloading audio...", "Uploading to YouTube...", "Error: " ++ e],
          conv := resetConv conv, created := m.created, deleted := m.deleted,
          fetched := m.fetched, background := m.background, attachedThumb := none }
      | .ok video_url =>
        let extraClean := match localThumb with | some t => [t] | none => []
        { messages := ["Downloading audio...", "Uploading to YouTube...", "Done!\n" ++ video_url],
          conv := resetConv conv, created := m.created,
          deleted := m.deleted ++ [video_path] ++ extraClean,
          fetched := m.fetched, background := m.background, attachedThumb := localThumb }

/-- The first error raised by stages 1-4, in the order the run hits
them (audio download; thumbnail derivation when no local thumbnail is
forwarded; render; upload). -/
def stageFailure (env : PipelineEnv) (localThumb : Option String) : Option String :=
  match env.downloadAudio with
  | .error e => some e
  | .ok _ =>
    let thumbErr : Option String :=
      match localThumb with
      | some _ => none
      | none =>
        match env.thumbUrl with
        | .error e => some e
        | .ok _ => match env.downloadThumb with | .error e => some e | .ok _ => none
    match thumbErr with
    | some e => some e
    | none =>
      match env.render with
      | .error e => some e
      | .ok _ => match env.upload with | .error e => some e | .ok _ => none

/-! ## Supporting lemmas -/

theorem matchLit_eq_append : ∀ {p l r : List Char}, matchLit p l = some r → l = p ++ r := by
  intro p
  induction p with
  | nil => intro l r h; simp [matchLit] at h; simp [h]
  | cons c p ih =>
    intro l r h
    cases l with
    | nil => simp [matchLit] at h
    | cons d l =>
      by_cases hcd : c = d
      · subst hcd
        simp [matchLit] at h
        have := ih h
        simp [this]
      · simp [matchLit, hcd] at h

theorem matchLit_append_self : ∀ (p r : List Char), matchLit p (p ++ r) = some r := by
  intro p
  induction p with
  | nil => intro r; simp [matchLit]
  | cons c p ih => intro r; simp [matchLit, ih]

theorem pyStartsWith_append (p r : List Char) : pyStartsWith p (p ++ r) = true := by
  simp [pyStartsWith, matchLit_append_self]

theorem matchLit_cons_head {c : Char} {p l r : List Char}
    (h : matchLit (c :: p) l = some r) : l.head? = some c := by
  cases l with
  | nil => simp [matchLit] at h
  | cons d l =>
    by_cases hcd : c = d
    · simp [hcd]
    · simp [matchLit, hcd] at h

theorem mem_dropWhile_of_mem {p : Char → Bool} :
    ∀ {l : List Char} {a : Char}, a ∈ l → p a = false → a ∈ l.dropWhile p := by
  intro l
  induction l with
  | nil => intro a h _; simp at h
  | cons b l ih =>
    intro a h hpa
    by_cases hpb : p b
    · rcases List.mem_cons.mp h with rfl | hmem
      · rw [hpa] at hpb; cases hpb
      · simp [List.dropWhile, hpb]
        exact ih hmem hpa
    · simp only [List.dropWhile, Bool.not_eq_true] at hpb ⊢
      rw [hpb]
      exact h

theorem mem_pyStrip {l : List Char} {a : Char}
    (h : a ∈ l) (hp : pyIsSpace a = false) : a ∈ pyStrip l := by
  unfold pyStrip
  have h1 := mem_dropWhile_of_mem h hp
  have h2 : a ∈ (l.dropWhile pyIsSpace).reverse := List.mem_reverse.mpr h1
  have h3 := mem_dropWhile_of_mem h2 hp
  exact List.mem_reverse.mpr h3

theorem strip_lower_ne_of_y {s : String} (hy : 'y' ∈ s.data)
    {w : String} (hw : 'y' ∉ w.data) : strip_lower s ≠ w := by
  intro he
  have hdata : pyLower (pyStrip s.data) = w.data := congrArg String.data he
  have h1 : 'y' ∈ pyStrip s.data := mem_pyStrip hy (by decide)
  have h2 : pyLowerChar 'y' ∈ pyLower (pyStrip s.data) := List.mem_map_of_mem pyLowerChar h1
  have h3 : pyLowerChar 'y' = 'y' := by decide
  rw [h3, hdata] at h2
  exact hw h2

theorem y_mem_of_tryHost {h l m : List Char} (hy : 'y' ∈ h)
    (hm : tryHost h l = some m) : 'y' ∈ l := by
  unfold tryHost at hm
  cases hml : matchLit h l with
  | none => rw [hml] at hm; cases hm
  | some rest =>
    rw [matchLit_eq_append hml]
    exact List.mem_append.mpr (Or.inl hy)

theorem y_mem_of_matchHost {l m : List Char} (hm : matchHost l = some m) : 'y' ∈ l := by
  unfold matchHost at hm
  cases h1 : tryHost hostWatch l with
  | some _ => exact y_mem_of_tryHost (by decide) h1
  | none =>
    rw [h1] at hm
    cases h2 : tryHost hostShort l with
    | some _ => exact y_mem_of_tryHost (by decide) h2
    | none =>
      rw [h2] at hm
      exact y_mem_of_tryHost (by decide) hm

theorem y_mem_of_tryWww {w l m : List Char} (hm : tryWww w l = some m) : 'y' ∈ l := by
  unfold tryWww at hm
  cases hml : matchLit w l with
  | none => rw [hml] at hm; cases hm
  | some rest =>
    rw [hml] at hm
    dsimp only at hm
    cases hmh : matchHost rest with
    | none => rw [hmh] at hm; cases hm
    | some _ =>
      rw [matchLit_eq_append hml]
      exact List.mem_append.mpr (Or.inr (y_mem_of_matchHost hmh))

theorem y_mem_of_matchWww {l m : List Char} (hm : matchWww l = some m) : 'y' ∈ l := by
  unfold matchWww at hm
  cases h1 : tryWww litWww l with
  | some _ => exact y_mem_of_tryWww h1
  | none => rw [h1] at hm; exact y_mem_of_tryWww hm

theorem y_mem_of_trySch {s l m : List Char} (hm : trySch s l = some m) : 'y' ∈ l := by
  unfold trySch at hm
  cases hml : matchLit s l with
  | none => rw [hml] at hm; cases hm
  | some rest =>
    rw [hml] at hm
    dsimp only at hm
    cases hmw : matchWww rest with
    | none => rw [hmw] at hm; cases hm
    | some _ =>
      rw [matchLit_eq_append hml]
      exact List.mem_append.mpr (Or.inr (y_mem_of_matchWww hmw))

theorem y_mem_of_matchAt {l m : List Char} (hm : matchAt l = some m) : 'y' ∈ l := by
  unfold matchAt at hm
  cases h1 : trySch litHttps l with
  | some _ => exact y_mem_of_trySch h1
  | none =>
    rw [h1] at hm
    cases h2 : trySch litHttp l with
    | some _ => exact y_mem_of_trySch h2
    | none => rw [h2] at hm; exact y_mem_of_trySch hm

theorem y_mem_of_search : ∀ {l u : List Char}, youtube_url_search l = some u → 'y' ∈ l := by
  intro l
  induction l with
  | nil => intro u h; simp [youtube_url_search] at h
  | cons c rest ih =>
    intro u h
    unfold youtube_url_search at h
    cases hm : matchAt (c :: rest) with
    | some m => exact y_mem_of_matchAt hm
    | none =>
      rw [hm] at h
      exact List.mem_cons_of_mem c (ih h)

theorem search_eq_matchAt :
    ∀ {l u : List Char}, youtube_url_search l = some u → ∃ l', matchAt l' = some u := by
  intro l
  induction l with
  | nil => intro u h; simp [youtube_url_search] at h
  | cons c rest ih =>
    intro u h
    unfold youtube_url_search at h
    cases hm : matchAt (c :: rest) with
    | some m => rw [hm] at h; exact ⟨c :: rest, hm.trans h⟩
    | none => rw [hm] at h; exact ih h

theorem tryHost_shape {h l m : List Char} (hm : tryHost h l = some m) :
    ∃ run, m = h ++ run := by
  unfold tryHost at hm
  cases hml : matchLit h l with
  | none => rw [hml] at hm; cases hm
  | some rest =>
    rw [hml] at hm
    dsimp only at hm
    by_cases he : (rest.takeWhile isWordChar).isEmpty
    · simp [he] at hm
    · simp [he] at hm
      exact ⟨_, hm.symm⟩

theorem matchHost_head {l m : List Char} (hm : matchHost l = some m) :
    m.head? = some 'y' := by
  have shape : ∀ h : List Char, h.head? = some 'y' → ∀ {m'}, tryHost h l = some m' → m'.head? = some 'y' := by
    intro h hh m' hm'
    obtain ⟨run, rfl⟩ := tryHost_shape hm'
    cases h with
    | nil => simp at hh
    | cons c h => simp at hh ⊢; simpa using hh
  unfold matchHost at hm
  cases h1 : tryHost hostWatch l with
  | some _ => rw [h1] at hm; exact shape hostWatch (by decide) (h1.trans hm)
  | none =>
    rw [h1] at hm
    cases h2 : tryHost hostShort l with
    | some _ => rw [h2] at hm; exact shape hostShort (by decide) (h2.trans hm)
    | none => rw [h2] at hm; exact shape hostShorts (by decide) hm

theorem matchWww_head {l m : List Char} (hm : matchWww l = some m) :
    m.head? = some 'w' ∨ m.head? = some 'y' := by
  unfold matchWww at hm
  cases h1 : tryWww litWww l with
  | some mv =>
    rw [h1] at hm
    dsimp only at hm
    have hmv : mv = m := Option.some.inj hm
    subst hmv
    left
    unfold tryWww at h1
    cases hml : matchLit litWww l with
    | none => rw [hml] at h1; cases h1
    | some rest =>
      rw [hml] at h1
      dsimp only at h1
      cases hmh : matchHost rest with
      | none => rw [hmh] at h1; cases h1
      | some m' =>
        rw [hmh] at h1
        have hshape : litWww ++ m' = mv := by simpa using h1
        rw [← hshape]
        simp [litWww]
  | none =>
    rw [h1] at hm
    right
    unfold tryWww at hm
    rw [show matchLit [] l = some l from rfl] at hm
    dsimp only at hm
    cases hmh : matchHost l with
    | none => rw [hmh] at hm; cases hm
    | some m' =>
      rw [hmh] at hm
      have hmm : m' = m := by simpa using hm
      rw [← hmm]
      exact matchHost_head hmh

theorem matchAt_scheme {l u : List Char} (hm : matchAt l = some u)
    (hh : pyStartsWith "http".data u = true) :
    pyStartsWith litHttps u = true ∨ pyStartsWith litHttp u = true := by
  have schemeCase : ∀ s : List Char, ∀ {u'}, trySch s u' = some u → ∃ m', u = s ++ m' := by
    intro s u' hts
    unfold trySch at hts
    cases hml : matchLit s u' with
    | none => rw [hml] at hts; cases hts
    | some rest =>
      rw [hml] at hts
      dsimp only at hts
      cases hmw : matchWww rest with
      | none => rw [hmw] at hts; cases hts
      | some m' => rw [hmw] at hts; exact ⟨m', (Option.some.inj hts).symm⟩
  unfold matchAt at hm
  cases h1 : trySch litHttps l with
  | some _ =>
    rw [h1] at hm
    obtain ⟨m', rfl⟩ := schemeCase litHttps (h1.trans hm)
    exact Or.inl (pyStartsWith_append _ _)
  | none =>
    rw [h1] at hm
    cases h2 : trySch litHttp l with
    | some _ =>
      rw [h2] at hm
      obtain ⟨m', rfl⟩ := schemeCase litHttp (h2.trans hm)
      exact Or.inr (pyStartsWith_append _ _)
    | none =>
      rw [h2] at hm
      exfalso
      unfold trySch at hm
      rw [show matchLit [] l = some l from rfl] at hm
      dsimp only at hm
      cases hmw : matchWww l with
      | none => rw [hmw] at hm; cases hm
      | some m' =>
        rw [hmw] at hm
        have hu : m' = u := by simpa using hm
        subst hu
        unfold pyStartsWith at hh
        cases m' with
        | nil => rcases matchWww_head hmw with hw | hw <;> simp at hw
        | cons c rest =>
          rcases matchWww_head hmw with hw | hw <;>
            simp at hw <;> subst hw <;>
            simp [matchLit, show ('h' : Char) ≠ 'w' by decide,
                  show ('h' : Char) ≠ 'y' by decide] at hh

/-! ## Concrete scenarios -/

/-- One registered account, as in the happy-path scenario. -/
def sampleAccounts : List Account := [⟨1, "Music", some "credentials/Music_credentials.pickle"⟩]

/-- A conversation one answer away from `processing`. -/
def privacyConv : Conv :=
  ⟨"awaiting_privacy", some "https://youtu.be/abc", some 1, some "T", some "", none, "public", 0⟩

/-- First delivery: the privacy answer that enters `processing`. -/
def webStep1 : WebOut := handle_webhook privacyConv sampleAccounts "whatsapp:+15551234567" "public" none

/-- Second delivery: an unrelated message while `processing`. -/
def webStep2 : WebOut :=
  handle_webhook webStep1.conv webStep1.accounts "whatsapp:+15551234567" "hello" none

/-- A conversation already in `processing`, with a complete draft. -/
def processingConv : Conv :=
  ⟨"processing", some "https://youtu.be/abc", some 1, some "T", some "", none, "public", 0⟩

/-- Stages 1-3 succeed, the upload raises. -/
def uploadFailEnv : PipelineEnv :=
  ⟨.ok "temp/audio_1.mp3", .ok "http://img.example/preview.jpg", .ok "temp/thumb_1.jpg",
   .ok "temp/video_1.mp4", .error "Upload failed"⟩

/-- A draft whose `thumbnail_path` is a remote-fetch marker. -/
def remoteThumbConv : Conv :=
  ⟨"processing", some "https://youtu.be/abc", some 1, some "T", some "",
   some "http://example.com/pic.jpg", "public", 0⟩

/-- Every stage succeeds. -/
def allOkEnv : PipelineEnv :=
  ⟨.ok "temp/audio_1.mp3", .ok "http://img.example/preview.jpg", .ok "temp/derived_1.jpg",
   .ok "temp/video_1.mp4", .ok "https://youtube.com/watch?v=newid"⟩

/-! ## Claim theorems -/

/-- C1: the pipeline-launch check of `whatsapp_webhook` is
level-triggered, not edge-triggered. Entering `processing` launches the
pipeline (first delivery), but a second message delivered while the
state is already `processing` gets the "Still processing" reply AND
schedules `process_and_upload` a second time — refuting the claim that
the no-op reply comes with no second pipeline launch. -/
theorem pipeline_relaunch_on_processing_message :
    webStep1.conv.state = "processing" ∧ webStep1.launched = true ∧
    webStep2.reply = "Still processing... Please wait." ∧
    webStep2.conv.state = "processing" ∧ webStep2.launched = true := by decide

/-- C2: the correlation token has the documented `accountId:senderIdentity`
shape, but parsing it with `state.split(":")` and taking `parts[1]`
truncates any sender identity that itself contains a colon — which a
WhatsApp sender identity (`whatsapp:+...`) always does. The callback
recovers `"whatsapp"` instead of the original sender, so the
confirmation cannot reach them. -/
theorem oauth_state_roundtrip_truncated :
    make_oauth_state 7 "whatsapp:+15551234567" = "7:whatsapp:+15551234567" ∧
    parse_oauth_state (make_oauth_state 7 "whatsapp:+15551234567") = some (7, some "whatsapp") ∧
    parse_oauth_state (make_oauth_state 7 "whatsapp:+15551234567") ≠
      some (7, some "whatsapp:+15551234567") := by decide

/-- C3 counterexample: while the state is `awaiting_title`, an inbound
"help" body is pre-captured into the title draft (refreshing
`updated_at`) before the global command is handled, so the record does
not stay unchanged. -/
theorem help_in_awaiting_title_mutates :
    (handle_webhook ⟨"awaiting_title", some "https://youtu.be/abc", some 1, none, none, none, "public", 0⟩
       [] "whatsapp:+15551234567" "help" none).conv.title = some "help" ∧
    (handle_webhook ⟨"awaiting_title", some "https://youtu.be/abc", some 1, none, none, none, "public", 0⟩
       [] "whatsapp:+15551234567" "help" none).conv ≠
      ⟨"awaiting_title", some "https://youtu.be/abc", some 1, none, none, none, "public", 0⟩ ∧
    (handle_webhook ⟨"awaiting_title", some "https://youtu.be/abc", some 1, none, none, none, "public", 0⟩
       [] "whatsapp:+15551234567" "help" none).reply = helpMessage := by decide

/-- C4 counterexample: a cancellation word delivered while `processing`
is not a no-op — the global cancel handler resets the record to `idle`. -/
theorem cancel_in_processing_changes_record :
    (process_message processingConv sampleAccounts "cancel" none).conv.state = "idle" ∧
    (process_message processingConv sampleAccounts "cancel" none).conv ≠ processingConv := by decide

/-- C5 counterexample: when the upload stage raises, the rendered video
and the derived thumbnail created by the run are not deleted — the only
file removed is the audio, deleted earlier by the successful render
step. -/
theorem upload_failure_leaves_artifacts :
    (process_and_upload processingConv sampleAccounts uploadFailEnv).messages =
      ["Downloading audio...", "Uploading to YouTube...", "Error: Upload failed"] ∧
    (process_and_upload processingConv sampleAccounts uploadFailEnv).created =
      ["temp/audio_1.mp3", "temp/thumb_1.jpg", "temp/video_1.mp4"] ∧
    (process_and_upload processingConv sampleAccounts uploadFailEnv).deleted =
      ["temp/audio_1.mp3"] ∧
    "temp/video_1.mp4" ∉ (process_and_upload processingConv sampleAccounts uploadFailEnv).deleted := by
  decide

/-- C9 counterexample: a remote-fetch `thumbnail_path` marker is never
downloaded — the only URL fetched is the source's own preview image,
the rendered background is that derived image, and no custom thumbnail
is attached to the published video. -/
theorem remote_marker_ignored :
    (process_and_upload remoteThumbConv sampleAccounts allOkEnv).fetched =
      ["http://img.example/preview.jpg"] ∧
    "http://example.com/pic.jpg" ∉ (process_and_upload remoteThumbConv sampleAccounts allOkEnv).fetched ∧
    (process_and_upload remoteThumbConv sampleAccounts allOkEnv).background =
      some "temp/derived_1.jpg" ∧
    (process_and_upload remoteThumbConv sampleAccounts allOkEnv).attachedThumb = none := by decide

/-- C10 counterexample: a record stuck in an unrecognized state that
receives "help" gets the help text, not the fallback reply, and keeps
its unrecognized state. -/
theorem unknown_state_help_not_reset :
    (process_message ⟨"limbo", none, none, none, none, none, "public", 0⟩ [] "help" none).reply =
      .text helpMessage ∧
    (process_message ⟨"limbo", none, none, none, none, none, "public", 0⟩ [] "help" none).conv.state =
      "limbo" ∧
    "limbo" ∉ stateEnum := by decide

/-- C6: in every state, an inbound cancellation word (after the code's
strip/lower normalization) resets the conversation: state `idle`, all
draft fields cleared, visibility back to its `"public"` default. -/
theorem cancel_resets_everywhere (conv : Conv) (accounts : List Account) (message : String)
    (media_url : Option String)
    (h : strip_lower message = "cancel" ∨ strip_lower message = "stop" ∨
         strip_lower message = "quit") :
    (process_message conv accounts message media_url).conv =
      { state := "idle", youtube_url := none, account_id := none, title := none,
        description := none, thumbnail_path := none, privacy := "public",
        updated_at := conv.updated_at + 1 } ∧
    (process_message conv accounts message media_url).reply =
      .text "Cancelled. Send 'upload' to start." ∧
    (process_message conv accounts message media_url).accounts = accounts := by
  rcases h with h | h | h <;> simp [process_message, h, resetConv]

/-- C6 witness: a concrete cancellation (" CANCEL " in `awaiting_thumbnail`
with a full draft) resets everything. -/
theorem cancel_resets_everywhere_witness :
    (process_message ⟨"awaiting_thumbnail", some "https://youtu.be/abc", some 1, some "T",
        some "d", some "temp/t.jpg", "unlisted", 9⟩ sampleAccounts " CANCEL " none).conv =
      { state := "idle", youtube_url := none, account_id := none, title := none,
        description := none, thumbnail_path := none, privacy := "public", updated_at := 10 } ∧
    (process_message ⟨"awaiting_thumbnail", some "https://youtu.be/abc", some 1, some "T",
        some "d", some "temp/t.jpg", "unlisted", 9⟩ sampleAccounts " CANCEL " none).reply =
      .text "Cancelled. Send 'upload' to start." ∧
    (process_message ⟨"awaiting_thumbnail", some "https://youtu.be/abc", some 1, some "T",
        some "d", some "temp/t.jpg", "unlisted", 9⟩ sampleAccounts " CANCEL " none).accounts =
      sampleAccounts :=
  cancel_resets_everywhere _ sampleAccounts " CANCEL " none (by decide)

/-- C4 amended: a cancellation word delivered while `processing` is not
a no-op on the record: it resets the conversation to `idle` (clearing
every draft field and restoring the default visibility) and replies
with the cancel text; the already-running pipeline itself is not
aborted, since the state machine has no abort channel to it. -/
theorem cancel_while_processing_resets (conv : Conv) (accounts : List Account) (message : String)
    (media_url : Option String) (hstate : conv.state = "processing")
    (h : strip_lower message = "cancel" ∨ strip_lower message = "stop" ∨
         strip_lower message = "quit") :
    (process_message conv accounts message media_url).conv = resetConv conv ∧
    (process_message conv accounts message media_url).conv.state = "idle" ∧
    (process_message conv accounts message media_url).reply =
      .text "Cancelled. Send 'upload' to start." := by
  rcases h with h | h | h <;> simp [process_message, h, resetConv]

/-- C4 amended witness: "stop" while `processing` resets the record. -/
theorem cancel_while_processing_resets_witness :
    (process_message processingConv sampleAccounts "stop" none).conv = resetConv processingConv ∧
    (process_message processingConv sampleAccounts "stop" none).conv.state = "idle" ∧
    (process_message processingConv sampleAccounts "stop" none).reply =
      .text "Cancelled. Send 'upload' to start." :=
  cancel_while_processing_resets processingConv sampleAccounts "stop" none (by decide) (by decide)

/-- C3 amended: in every state except `awaiting_title` and
`awaiting_description`, an inbound help word or "accounts" query leaves
the conversation record, the account table and the credential files
entirely unchanged and returns the informational text; in those two
states the webhook first captures the body into the title/description
draft, so the record does not stay unchanged there. -/
theorem help_accounts_frame (conv : Conv) (accounts : List Account) (phone body : String)
    (media_path : Option String)
    (ht : conv.state ≠ "awaiting_title") (hd : conv.state ≠ "awaiting_description")
    (h : strip_lower body = "help" ∨ strip_lower body = "?" ∨ strip_lower body = "accounts") :
    (handle_webhook conv accounts phone body media_path).conv = conv ∧
    (handle_webhook conv accounts phone body media_path).accounts = accounts ∧
    (handle_webhook conv accounts phone body media_path).deletedCreds = [] ∧
    ((strip_lower body = "help" ∨ strip_lower body = "?") →
      (handle_webhook conv accounts phone body media_path).reply = helpMessage) ∧
    (strip_lower body = "accounts" →
      (handle_webhook conv accounts phone body media_path).reply = listAccountsMsg accounts) := by
  rcases h with h | h | h <;>
    simp [handle_webhook, process_message, h, ht, hd]

/-- C3 amended witness: "accounts" while `awaiting_privacy` changes
nothing and lists the accounts. -/
theorem help_accounts_frame_witness :
    (handle_webhook privacyConv sampleAccounts "whatsapp:+15551234567" "accounts" none).conv =
      privacyConv ∧
    (handle_webhook privacyConv sampleAccounts "whatsapp:+15551234567" "accounts" none).accounts =
      sampleAccounts ∧
    (handle_webhook privacyConv sampleAccounts "whatsapp:+15551234567" "accounts" none).deletedCreds =
      [] ∧
    ((strip_lower "accounts" = "help" ∨ strip_lower "accounts" = "?") →
      (handle_webhook privacyConv sampleAccounts "whatsapp:+15551234567" "accounts" none).reply =
        helpMessage) ∧
    (strip_lower "accounts" = "accounts" →
      (handle_webhook privacyConv sampleAccounts "whatsapp:+15551234567" "accounts" none).reply =
        listAccountsMsg sampleAccounts) :=
  help_accounts_frame privacyConv sampleAccounts "whatsapp:+15551234567" "accounts" none
    (by decide) (by decide) (by decide)

/-- After any call whose body is not a help word or the accounts query,
the resulting state is one of the ten enumerated states. -/
theorem state_mem_enum (conv : Conv) (accounts : List Account) (message : String)
    (media_url : Option String)
    (h1 : strip_lower message ≠ "help") (h2 : strip_lower message ≠ "?")
    (h3 : strip_lower message ≠ "accounts") :
    (process_message conv accounts message media_url).conv.state ∈ stateEnum := by
  by_cases hc : strip_lower message = "cancel" ∨ strip_lower message = "stop" ∨
      strip_lower message = "quit"
  · rcases hc with h' | h' | h' <;> simp [process_message, h', resetConv, stateEnum]
  · simp only [not_or] at hc
    obtain ⟨hc1, hc2, hc3⟩ := hc
    simp only [process_message]
    rw [if_neg (by simp [hc1, hc2, hc3]), if_neg (by simp [h1, h2]), if_neg h3]
    by_cases hsA : conv.state = "idle"
    · rw [if_pos hsA]
      repeat' split
      all_goals simp [stateEnum, hsA]
    rw [if_neg hsA]
    by_cases hsB : conv.state = "adding_account"
    · rw [if_pos hsB]
      simp only [handleAddingAccount]
      repeat' split
      all_goals simp [stateEnum, resetConv, hsB]
    rw [if_neg hsB]
    by_cases hsC : conv.state = "removing_account"
    · rw [if_pos hsC]
      simp only [handleRemovingAccount]
      repeat' split
      all_goals simp [stateEnum, resetConv, hsC]
    rw [if_neg hsC]
    by_cases hsD : conv.state = "awaiting_link"
    · rw [if_pos hsD]
      simp only [handleAwaitingLink]
      repeat' split
      all_goals simp [stateEnum, hsD]
    rw [if_neg hsD]
    by_cases hsE : conv.state = "awaiting_account"
    · rw [if_pos hsE]
      simp only [handleAwaitingAccount]
      repeat' split
      all_goals simp [stateEnum, hsE]
    rw [if_neg hsE]
    by_cases hsF : conv.state = "awaiting_title"
    · rw [if_pos hsF]
      simp [stateEnum]
    rw [if_neg hsF]
    by_cases hsG : conv.state = "awaiting_description"
    · rw [if_pos hsG]
      simp [stateEnum]
    rw [if_neg hsG]
    by_cases hsH : conv.state = "awaiting_thumbnail"
    · rw [if_pos hsH]
      simp only [handleAwaitingThumbnail]
      repeat' split
      all_goals simp [stateEnum, hsH]
    rw [if_neg hsH]
    by_cases hsI : conv.state = "awaiting_privacy"
    · rw [if_pos hsI]
      simp only [handleAwaitingPrivacy]
      repeat' split
      all_goals simp [stateEnum, hsI]
    rw [if_neg hsI]
    by_cases hsJ : conv.state = "processing"
    · rw [if_pos hsJ]
      simp [stateEnum, hsJ]
    rw [if_neg hsJ]
    simp [stateEnum, resetConv]

/-- C10 amended: for a record in an unrecognized state, any message
that is not a global command (cancellation, help, accounts) falls
through every branch, returns the fallback reply and resets the record;
and for every message that is not a help word or the accounts query
(which leave an unrecognized state in place), the state after
`process_message` belongs to the fixed enumeration. -/
theorem unknown_state_fallback_and_closure (conv : Conv) (accounts : List Account)
    (message : String) (media_url : Option String)
    (h : ¬(strip_lower message = "help" ∨ strip_lower message = "?" ∨
           strip_lower message = "accounts")) :
    (conv.state ∉ stateEnum →
      ¬(strip_lower message = "cancel" ∨ strip_lower message = "stop" ∨
        strip_lower message = "quit") →
      (process_message conv accounts message media_url).conv = resetConv conv ∧
      (process_message conv accounts message media_url).reply =
        .text "Something went wrong. Send 'upload' to start.") ∧
    (process_message conv accounts message media_url).conv.state ∈ stateEnum := by
  simp only [not_or] at h
  obtain ⟨h1, h2, h3⟩ := h
  refine ⟨?_, state_mem_enum conv accounts message media_url h1 h2 h3⟩
  intro hunk hnc
  simp only [not_or] at hnc
  obtain ⟨hc1, hc2, hc3⟩ := hnc
  have hs : ∀ s, s ∈ stateEnum → conv.state ≠ s := fun s hmem he => hunk (he ▸ hmem)
  simp [process_message, h1, h2, h3, hc1, hc2, hc3,
        hs "idle" (by decide), hs "adding_account" (by decide),
        hs "removing_account" (by decide), hs "awaiting_link" (by decide),
        hs "awaiting_account" (by decide), hs "awaiting_title" (by decide),
        hs "awaiting_description" (by decide), hs "awaiting_thumbnail" (by decide),
        hs "awaiting_privacy" (by decide), hs "processing" (by decide), resetConv]

/-- C10 amended witness: an unrecognized state with a non-command
message gets the fallback reply, resets, and lands in the enumeration. -/
theorem unknown_state_fallback_and_closure_witness :
    (((⟨"limbo", none, none, none, none, none, "public", 4⟩ : Conv).state ∉ stateEnum →
      ¬(strip_lower "zzz" = "cancel" ∨ strip_lower "zzz" = "stop" ∨
        strip_lower "zzz" = "quit") →
      (process_message ⟨"limbo", none, none, none, none, none, "public", 4⟩ [] "zzz" none).conv =
        resetConv ⟨"limbo", none, none, none, none, none, "public", 4⟩ ∧
      (process_message ⟨"limbo", none, none, none, none, none, "public", 4⟩ [] "zzz" none).reply =
        .text "Something went wrong. Send 'upload' to start.") ∧
    (process_message ⟨"limbo", none, none, none, none, none, "public", 4⟩ [] "zzz" none).conv.state ∈
      stateEnum) :=
  unknown_state_fallback_and_closure ⟨"limbo", none, none, none, none, none, "public", 4⟩ []
    "zzz" none (by decide)

/-- C7: with at least one registered account, a numeric selection that
parses to `0` or to `N+1` is rejected with the bounds message in both
the account-selection and the account-removal state, and the rejection
changes nothing: conversation row, account table and credential files
are all untouched. -/
theorem numeric_bounds (conv : Conv) (accounts : List Account) (message : String)
    (media_url : Option String)
    (hN : 1 ≤ accounts.length)
    (hst : conv.state = "awaiting_account" ∨ conv.state = "removing_account")
    (hsel : pyInt? (strip_lower message) = some 0 ∨
            pyInt? (strip_lower message) = some ((accounts.length : Int) + 1)) :
    (process_message conv accounts message media_url).conv = conv ∧
    (process_message conv accounts message media_url).accounts = accounts ∧
    (process_message conv accounts message media_url).deletedCreds = [] ∧
    (conv.state = "awaiting_account" →
      (process_message conv accounts message media_url).reply =
        .text ("Enter 1-" ++ toString accounts.length ++ ".")) ∧
    (conv.state = "removing_account" →
      (process_message conv accounts message media_url).reply =
        .text ("Enter a number between 1 and " ++ toString accounts.length ++ ".")) := by
  have hne : ∀ w : String, pyInt? w = none → strip_lower message ≠ w := by
    intro w hw he
    rw [he] at hsel
    rcases hsel with h' | h' <;> rw [hw] at h' <;> cases h'
  have hca := hne "cancel" (by decide)
  have hsp := hne "stop" (by decide)
  have hqu := hne "quit" (by decide)
  have hhe := hne "help" (by decide)
  have hqm := hne "?" (by decide)
  have hac := hne "accounts" (by decide)
  rcases hst with hs | hs
  · simp only [process_message]
    rw [if_neg (by simp [hca, hsp, hqu]), if_neg (by simp [hhe, hqm]), if_neg hac,
        if_neg (by rw [hs]; decide), if_neg (by rw [hs]; decide),
        if_neg (by rw [hs]; decide), if_neg (by rw [hs]; decide), if_pos hs]
    simp only [handleAwaitingAccount]
    rcases hsel with h' | h' <;> rw [h'] <;> dsimp only <;>
      rw [dif_neg (by omega)] <;> simp [hs]
  · simp only [process_message]
    rw [if_neg (by simp [hca, hsp, hqu]), if_neg (by simp [hhe, hqm]), if_neg hac,
        if_neg (by rw [hs]; decide), if_neg (by rw [hs]; decide), if_pos hs]
    simp only [handleRemovingAccount]
    rcases hsel with h' | h' <;> rw [h'] <;> dsimp only <;>
      rw [dif_neg (by omega)] <;> simp [hs]

/-- C7 witness: with one account, the selection "2" (= N+1) in
`removing_account` is rejected and nothing changes. -/
theorem numeric_bounds_witness :
    (process_message ⟨"removing_account", none, none, none, none, none, "public", 0⟩
        sampleAccounts "2" none).conv =
      ⟨"removing_account", none, none, none, none, none, "public", 0⟩ ∧
    (process_message ⟨"removing_account", none, none, none, none, none, "public", 0⟩
        sampleAccounts "2" none).accounts = sampleAccounts ∧
    (process_message ⟨"removing_account", none, none, none, none, none, "public", 0⟩
        sampleAccounts "2" none).deletedCreds = [] ∧
    ((⟨"removing_account", none, none, none, none, none, "public", 0⟩ : Conv).state =
        "awaiting_account" →
      (process_message ⟨"removing_account", none, none, none, none, none, "public", 0⟩
          sampleAccounts "2" none).reply =
        .text ("Enter 1-" ++ toString sampleAccounts.length ++ ".")) ∧
    ((⟨"removing_account", none, none, none, none, none, "public", 0⟩ : Conv).state =
        "removing_account" →
      (process_message ⟨"removing_account", none, none, none, none, none, "public", 0⟩
          sampleAccounts "2" none).reply =
        .text ("Enter a number between 1 and " ++ toString sampleAccounts.length ++ ".")) :=
  numeric_bounds ⟨"removing_account", none, none, none, none, none, "public", 0⟩
    sampleAccounts "2" none (by decide) (by decide) (by decide)

/-- C8: with exactly one registered account, a message containing a
recognized video-source URL submitted in `awaiting_link` stores the
matched URL normalized to carry an http/https scheme, binds the sole
account, and lands directly in `awaiting_title` (skipping
`awaiting_account`). -/
theorem single_account_link_autoselect (conv : Conv) (a : Account) (message : String)
    (media_url : Option String) (u : List Char)
    (hstate : conv.state = "awaiting_link")
    (hsearch : youtube_url_search message.data = some u) :
    (process_message conv [a] message media_url).conv =
      { conv with youtube_url := some (normalizeUrl u), account_id := some a.id,
                  state := "awaiting_title", updated_at := conv.updated_at + 2 } ∧
    (pyStartsWith litHttps (normalizeUrl u).data = true ∨
     pyStartsWith litHttp (normalizeUrl u).data = true) ∧
    (process_message conv [a] message media_url).reply =
      .text ("Using " ++ a.name ++ ". Enter video title:") := by
  have hy : 'y' ∈ message.data := y_mem_of_search hsearch
  have hne : ∀ w : String, 'y' ∉ w.data → strip_lower message ≠ w :=
    fun w hw => strip_lower_ne_of_y hy hw
  have hca := hne "cancel" (by decide)
  have hsp := hne "stop" (by decide)
  have hqu := hne "quit" (by decide)
  have hhe := hne "help" (by decide)
  have hqm := hne "?" (by decide)
  have hac := hne "accounts" (by decide)
  simp only [process_message]
  rw [if_neg (by simp [hca, hsp, hqu]), if_neg (by simp [hhe, hqm]), if_neg hac,
      if_neg (by rw [hstate]; decide), if_neg (by rw [hstate]; decide),
      if_neg (by rw [hstate]; decide), if_pos hstate]
  simp only [handleAwaitingLink]
  rw [hsearch]
  dsimp only
  refine ⟨rfl, ?_, rfl⟩
  obtain ⟨l', hAt⟩ := search_eq_matchAt hsearch
  by_cases hu : pyStartsWith "http".data u = true
  · have hn : normalizeUrl u = ⟨u⟩ := by simp [normalizeUrl, hu]
    rw [hn]
    exact matchAt_scheme hAt hu
  · have hn : normalizeUrl u = "https://" ++ (⟨u⟩ : String) := by simp [normalizeUrl, hu]
    rw [hn]
    left
    have hdata : ("https://" ++ (⟨u⟩ : String)).data = litHttps ++ u := rfl
    rw [hdata]
    exact pyStartsWith_append _ _

/-- C8 witness: the sole account "Music" is auto-selected after a valid
link inside a longer message. -/
theorem single_account_link_autoselect_witness :
    (process_message ⟨"awaiting_link", none, none, none, none, none, "public", 0⟩
        [⟨1, "Music", some "credentials/Music_credentials.pickle"⟩]
        "check https://youtu.be/abc123 out" none).conv =
      { (⟨"awaiting_link", none, none, none, none, none, "public", 0⟩ : Conv) with
        youtube_url := some (normalizeUrl "https://youtu.be/abc123".data),
        account_id := some 1, state := "awaiting_title", updated_at := 2 } ∧
    (pyStartsWith litHttps (normalizeUrl "https://youtu.be/abc123".data).data = true ∨
     pyStartsWith litHttp (normalizeUrl "https://youtu.be/abc123".data).data = true) ∧
    (process_message ⟨"awaiting_link", none, none, none, none, none, "public", 0⟩
        [⟨1, "Music", some "credentials/Music_credentials.pickle"⟩]
        "check https://youtu.be/abc123 out" none).reply =
      .text ("Using " ++ "Music" ++ ". Enter video title:") :=
  single_account_link_autoselect ⟨"awaiting_link", none, none, none, none, none, "public", 0⟩
    ⟨1, "Music", some "credentials/Music_credentials.pickle"⟩
    "check https://youtu.be/abc123 out" none "https://youtu.be/abc123".data
    (by decide) (by decide)

/-- C5 amended: if any of stages 1-4 raises, the run aborts — the last
notification sent to the sender is the error text and the conversation
is reset to idle — but the failed run's temporary artifacts are not
cleaned up: the only file ever deleted on a failing run is the
downloaded audio, removed by the render step when rendering itself
succeeded; the rendered video and the downloaded/derived thumbnail are
left behind. -/
theorem stage_failure_aborts (conv : Conv) (accounts : List Account) (env : PipelineEnv)
    (acct : Account) (e : String)
    (hacct : conv.account_id.bind (fun i => accounts.find? (fun a => a.id == i)) = some acct)
    (hfail : stageFailure env (localThumbOf conv) = some e) :
    (process_and_upload conv accounts env).conv = resetConv conv ∧
    (process_and_upload conv accounts env).messages.getLast? = some ("Error: " ++ e) ∧
    (∀ p ∈ (process_and_upload conv accounts env).deleted, env.downloadAudio = .ok p) := by
  obtain ⟨da, tu, dt, rr, up⟩ := env
  cases hlt : localThumbOf conv <;>
    cases da <;> cases tu <;> cases dt <;> cases rr <;> cases up <;>
    simp_all [process_and_upload, process_youtube_video, stageFailure, hacct, List.getLast?]

/-- C5 amended witness: the concrete failing upload notifies the error,
resets, and deletes only the audio file. -/
theorem stage_failure_aborts_witness :
    (process_and_upload processingConv sampleAccounts uploadFailEnv).conv =
      resetConv processingConv ∧
    (process_and_upload processingConv sampleAccounts uploadFailEnv).messages.getLast? =
      some ("Error: " ++ "Upload failed") ∧
    (∀ p ∈ (process_and_upload processingConv sampleAccounts uploadFailEnv).deleted,
      uploadFailEnv.downloadAudio = .ok p) :=
  stage_failure_aborts processingConv sampleAccounts uploadFailEnv
    ⟨1, "Music", some "credentials/Music_credentials.pickle"⟩ "Upload failed"
    (by decide) (by decide)

/-- C9 amended: a `thumbnail_path` holding a remote-fetch marker
(`http` prefix) is not resolved by downloading that remote image: the
router forwards no custom thumbnail, so the pipeline derives the
source's own preview (the only URL fetched), uses it as the static
background, and attaches no custom thumbnail to the published video;
a local artifact reference is used as-is as background and attached. -/
theorem thumbnail_marker_behavior (conv : Conv) (accounts : List Account) (env : PipelineEnv)
    (acct : Account) (t : String) (audio u tp video url : String)
    (hacct : conv.account_id.bind (fun i => accounts.find? (fun a => a.id == i)) = some acct)
    (ht : conv.thumbnail_path = some t) (htne : t ≠ "")
    (hda : env.downloadAudio = .ok audio) (htu : env.thumbUrl = .ok u)
    (hdt : env.downloadThumb = .ok tp) (hr : env.render = .ok video)
    (hup : env.upload = .ok url) :
    (pyStartsWith "http".data t.data = true →
      (process_and_upload conv accounts env).background = some tp ∧
      (process_and_upload conv accounts env).fetched = [u] ∧
      (process_and_upload conv accounts env).attachedThumb = none) ∧
    (pyStartsWith "http".data t.data = false →
      (process_and_upload conv accounts env).background = some t ∧
      (process_and_upload conv accounts env).fetched = [] ∧
      (process_and_upload conv accounts env).attachedThumb = some t) := by
  obtain ⟨da, tu, dt, rr, up⟩ := env
  dsimp only at hda htu hdt hr hup
  subst hda htu hdt hr hup
  constructor <;> intro hcase <;>
    simp [process_and_upload, process_youtube_video, localThumbOf, hacct, ht, htne, hcase]

/-- C9 amended witness: the remote marker `http://example.com/pic.jpg`
is ignored; only the derived preview is fetched and nothing attached. -/
theorem thumbnail_marker_behavior_witness :
    (pyStartsWith "http".data ("http://example.com/pic.jpg" : String).data = true →
      (process_and_upload remoteThumbConv sampleAccounts allOkEnv).background =
        some "temp/derived_1.jpg" ∧
      (process_and_upload remoteThumbConv sampleAccounts allOkEnv).fetched =
        ["http://img.example/preview.jpg"] ∧
      (process_and_upload remoteThumbConv sampleAccounts allOkEnv).attachedThumb = none) ∧
    (pyStartsWith "http".data ("http://example.com/pic.jpg" : String).data = false →
      (process_and_upload remoteThumbConv sampleAccounts allOkEnv).background =
        some "http://example.com/pic.jpg" ∧
      (process_and_upload remoteThumbConv sampleAccounts allOkEnv).fetched = [] ∧
      (process_and_upload remoteThumbConv sampleAccounts allOkEnv).attachedThumb =
        some "http://example.com/pic.jpg") :=
  thumbnail_marker_behavior remoteThumbConv sampleAccounts allOkEnv
    ⟨1, "Music", some "credentials/Music_credentials.pickle"⟩ "http://example.com/pic.jpg"
    "temp/audio_1.mp3" "http://img.example/preview.jpg" "temp/derived_1.jpg" "temp/video_1.mp4"
    "https://youtube.com/watch?v=newid"
    (by decide) (by decide) (by decide) (by decide) (by decide) (by decide) (by decide) (by decide)

end YT
